import Mathlib

/-!
Shallow embedding of the conversational streaming-relay core of `src/app.py`
(Flask chatbot backend): the chat session store, the append-only chat message
log, the history-window read, the prompt assembler for the provider call, and
the `/api/chat` handler with its streaming `generate` inner function.

Database state is modelled as explicit lists of rows plus a logical clock
standing for `datetime.datetime.utcnow()` (each call yields a strictly larger
timestamp) and a counter standing for `uuid.uuid4().hex` generation.  The
external completion provider is modelled as an explicit run description
(`ProviderRun`): the sequence of stream events the relay observed plus either
a final structured response (iteration and `get_final_response` completed) or
the information that an exception interrupted the interaction.
-/

namespace Chatbot

/-- Python `str.strip()` (ASCII whitespace): drop whitespace characters from
both ends of the string.  Defined structurally on the character list so the
kernel can evaluate it on concrete inputs. -/
def strip (s : String) : String :=
  String.mk (((s.data.dropWhile Char.isWhitespace).reverse.dropWhile Char.isWhitespace).reverse)

/-- A row of the `chat_sessions` table. -/
structure SessionRow where
  id : String
  created_at : Nat
  updated_at : Nat
deriving Repr, DecidableEq

/-- A row of the `chat_messages` table. -/
structure MessageRow where
  session_id : String
  role : String
  content : String
  created_at : Nat
deriving Repr, DecidableEq

/-- Database plus ambient-effect state: the two chat tables, a logical wall
clock for `utcnow()` and a counter for `uuid.uuid4().hex`. -/
structure DB where
  sessions : List SessionRow
  messages : List MessageRow
  clock : Nat
  nextUuid : Nat
deriving Repr, DecidableEq

/-- `utcnow()`: returns the current time and advances the clock (wall time is
modelled as strictly increasing between successive calls). -/
def utcnow (db : DB) : Nat × DB :=
  (db.clock, { db with clock := db.clock + 1 })

/-- `uuid.uuid4().hex`: a fresh opaque identifier from the generator state. -/
def uuid4hex (db : DB) : String × DB :=
  ("uuid" ++ toString db.nextUuid, { db with nextUuid := db.nextUuid + 1 })

/-- `ensure_chat_session` (src/app.py lines 421-436): `session_id or
uuid.uuid4().hex`, then `INSERT INTO chat_sessions ... ON CONFLICT(id) DO
UPDATE SET updated_at = :now`. -/
def ensure_chat_session (db : DB) (session_id : Option String) : String × DB :=
  let p : String × DB :=
    match session_id with
    | some s => if s = "" then uuid4hex db else (s, db)
    | none => uuid4hex db
  let chat_session_id := p.1
  let db := p.2
  let q := utcnow db
  let now := q.1
  let db := q.2
  let sessions :=
    if db.sessions.any (fun r => r.id == chat_session_id) then
      db.sessions.map (fun r =>
        if r.id = chat_session_id then { r with updated_at := now } else r)
    else
      db.sessions ++ [⟨chat_session_id, now, now⟩]
  (chat_session_id, { db with sessions := sessions })

/-- `save_chat_message` (src/app.py lines 439-465): insert the message row
with `created_at = utcnow()`, then set the session row's `updated_at` to a
second `utcnow()` reading. -/
def save_chat_message (db : DB) (session_id role content : String) : DB :=
  let q := utcnow db
  let created_at := q.1
  let db := q.2
  let db := { db with messages := db.messages ++ [⟨session_id, role, content, created_at⟩] }
  let q2 := utcnow db
  let updated_at := q2.1
  let db := q2.2
  { db with sessions := db.sessions.map (fun r =>
      if r.id = session_id then { r with updated_at := updated_at } else r) }

/-- `ORDER BY created_at DESC` as a relation on message rows. -/
def byCreatedDesc (a b : MessageRow) : Prop :=
  b.created_at ≤ a.created_at

instance : DecidableRel byCreatedDesc := fun a b =>
  inferInstanceAs (Decidable (b.created_at ≤ a.created_at))

instance : IsTotal MessageRow byCreatedDesc :=
  ⟨fun a b => Nat.le_total b.created_at a.created_at⟩

instance : IsTrans MessageRow byCreatedDesc :=
  ⟨fun _ _ _ h1 h2 => Nat.le_trans h2 h1⟩

/-- The rows produced by `fetch_chat_history` (src/app.py lines 468-487)
before the final `SELECT role, content` projection: filter by session, order
by `created_at DESC`, `LIMIT limit` (clamped to a minimum of 1), then reverse
back to chronological order. -/
def fetch_chat_history_rows (db : DB) (session_id : String) (limit : Int) : List MessageRow :=
  let limit : Int := if limit ≤ 0 then 1 else limit
  let rows :=
    (((db.messages.filter (fun r => r.session_id == session_id)).insertionSort
        byCreatedDesc).take limit.toNat)
  rows.reverse

/-- `fetch_chat_history`: the same rows projected to `(role, content)`. -/
def fetch_chat_history (db : DB) (session_id : String) (limit : Int) : List (String × String) :=
  (fetch_chat_history_rows db session_id limit).map (fun r => (r.role, r.content))

/-- A chat message as handed to the provider layer (`{"role": ..., "content": ...}`). -/
structure Msg where
  role : String
  content : String
deriving Repr, DecidableEq

/-- `build_assistant_messages` (src/app.py lines 490-503), parameterised by
the process-wide `SYSTEM_PROMPT` and `USER_PROMPT` configuration strings:
optionally the system block and the reference-document block, then the loop
keeping history items whose role is `user` or `assistant` and whose stripped
content is non-empty, then the trailing user message. -/
def build_assistant_messages (system_prompt user_prompt : String)
    (history : List (String × String)) (user_content : String) : List Msg :=
  let messages : List Msg := []
  let messages := if system_prompt ≠ "" then messages ++ [⟨"system", system_prompt⟩] else messages
  let messages := if user_prompt ≠ "" then messages ++ [⟨"user", user_prompt⟩] else messages
  let messages := history.foldl
    (fun acc item =>
      let role := item.1
      let content := strip item.2
      if (role = "user" ∨ role = "assistant") ∧ content ≠ "" then acc ++ [⟨role, content⟩]
      else acc)
    messages
  messages ++ [⟨"user", user_content⟩]

/-- One `{"type": ..., "text": ...}` content part of a provider wire message. -/
structure WirePart where
  type : String
  text : String
deriving Repr, DecidableEq

/-- One structured message of the provider wire shape. -/
structure WireMsg where
  role : String
  content : List WirePart
deriving Repr, DecidableEq

/-- `to_responses_input` (src/app.py lines 506-520): tag `assistant` messages
with `output_text`, every other role with `input_text`. -/
def to_responses_input (messages : List Msg) : List WireMsg :=
  messages.foldl
    (fun structured message =>
      let role := message.role
      let content_type := if role = "assistant" then "output_text" else "input_text"
      structured ++ [⟨role, [⟨content_type, message.content⟩]⟩])
    []

/-- One event observed while iterating the provider stream. -/
inductive StreamEvent where
  | output_text_delta (delta : String)
  | response_error (message : String)
  | other
deriving Repr, DecidableEq

/-- A `{"type": ..., "text": ...}` content entry of the final structured
provider response. -/
structure ContentPart where
  type : String
  text : String
deriving Repr, DecidableEq

/-- One output item of the final structured provider response. -/
structure OutputItem where
  content : List ContentPart
deriving Repr, DecidableEq

/-- The final structured provider response (`stream.get_final_response()`). -/
structure FinalResponse where
  output : List OutputItem
deriving Repr, DecidableEq

/-- One provider interaction as the relay observes it: either iteration and
final-response retrieval complete (`ok`), or an exception interrupts the
interaction after the given events were delivered (`exn`). -/
inductive ProviderRun where
  | ok (events : List StreamEvent) (final : FinalResponse)
  | exn (events : List StreamEvent)
deriving Repr, DecidableEq

/-- The `for event in stream` loop body (src/app.py lines 575-590): skip
empty deltas, accumulate and forward non-empty deltas in order, and raise on
a `response.error` event.  Returns the deltas accumulated (equal to the ones
forwarded as `text` frames) and whether an error event aborted the loop. -/
def stream_loop : List StreamEvent → List String × Bool
  | [] => ([], false)
  | StreamEvent.output_text_delta d :: rest =>
      if d = "" then stream_loop rest
      else
        let r := stream_loop rest
        (d :: r.1, r.2)
  | StreamEvent.response_error _ :: _ => ([], true)
  | StreamEvent.other :: rest => stream_loop rest

/-- The deltas forwarded to the client before the run's outcome is decided. -/
def ProviderRun.deltasForwarded : ProviderRun → List String
  | ProviderRun.ok events _ => (stream_loop events).1
  | ProviderRun.exn events => (stream_loop events).1

/-- Whether the `try` block of `generate` fails: a transport exception, or a
`response.error` event turned into a `RuntimeError`. -/
def ProviderRun.failsDuringStream : ProviderRun → Bool
  | ProviderRun.ok events _ => (stream_loop events).2
  | ProviderRun.exn _ => true

/-- The salvage loop over `final_response.output` (src/app.py lines 608-617):
the first `output_text` content whose stripped text is non-empty, else the
empty string. -/
def salvage_full_text (final : FinalResponse) : String :=
  (((final.output.map (fun item => item.content)).flatten).filterMap
      (fun c => if c.type = "output_text" ∧ strip c.text ≠ "" then some (strip c.text) else none)).headD
    ""

/-- One Server-Sent-Events frame as produced by `format_sse`: the JSON object
`{"type": ..., "content": ..., "session_id": ...}`. -/
structure Frame where
  type : String
  content : String
  session_id : String
deriving Repr, DecidableEq

/-- The generic user-safe message of the `except` branch (src/app.py lines
596-599). -/
def ERROR_TEXT : String :=
  "We hit an unexpected issue while generating the concierge reply." ++
    " Please try again shortly or reach our staff directly."

/-- The fixed fallback assistant text (src/app.py line 624). -/
def FALLBACK_TEXT : String :=
  "I\x27m sorry, I couldn\x27t craft a reply just now. Please rephrase or contact our concierge team."

/-- The diagnostic assistant text synthesised when no OpenAI client is
configured (src/app.py lines 556-560). -/
def no_client_text (message : String) : String :=
  "Unable to reach the OpenAI service right now. Please check the server logs.\n\n" ++
    "Message waiting to send: " ++ message ++ "\n" ++
    "Confirm that OPENAI_API_KEY is configured before retrying."

/-- The inner generator `generate` of `api_chat` (src/app.py lines 551-630),
run to completion: yields the frame list and the database state afterwards.
`hasClient` is whether `get_openai_client()` returned a client (an
`OPENAI_API_KEY` is configured); `run` is the observed provider interaction. -/
def generate (db : DB) (session_id message : String) (hasClient : Bool)
    (run : ProviderRun) : List Frame × DB :=
  let sessionFrame : Frame := ⟨"session", "", session_id⟩
  if hasClient = false then
    let assistant_text := no_client_text message
    let db := save_chat_message db session_id "assistant" assistant_text
    ([sessionFrame, ⟨"text", assistant_text, session_id⟩, ⟨"end", "", session_id⟩], db)
  else
    match run with
    | ProviderRun.exn events =>
        let accumulated := (stream_loop events).1
        (sessionFrame :: accumulated.map (fun d => ⟨"text", d, session_id⟩) ++
            [⟨"error", ERROR_TEXT, session_id⟩],
          db)
    | ProviderRun.ok events final =>
        let r := stream_loop events
        let accumulated := r.1
        let deltaFrames : List Frame := accumulated.map (fun d => ⟨"text", d, session_id⟩)
        if r.2 then
          (sessionFrame :: deltaFrames ++ [⟨"error", ERROR_TEXT, session_id⟩], db)
        else
          let full_text := strip (String.join accumulated)
          let full_text := if full_text = "" then salvage_full_text final else full_text
          if full_text = "" then
            let db := save_chat_message db session_id "assistant" FALLBACK_TEXT
            (sessionFrame :: deltaFrames ++
                [⟨"text", FALLBACK_TEXT, session_id⟩, ⟨"end", "", session_id⟩],
              db)
          else
            let db := save_chat_message db session_id "assistant" full_text
            (sessionFrame :: deltaFrames ++ [⟨"end", "", session_id⟩], db)

/-- A JSON value, for the untyped `session_id` field of the request body. -/
inductive Json where
  | null
  | bool (b : Bool)
  | num (n : Int)
  | str (s : String)
  | arr (xs : List Json)
  | obj (fields : List (String × Json))

/-- `isinstance(value, str)`. -/
def Json.isStr : Json → Bool
  | Json.str _ => true
  | _ => false

/-- `requested_session if isinstance(requested_session, str) else None`
(src/app.py lines 541-543). -/
def requestedSessionStr : Option Json → Option String
  | some (Json.str s) => some s
  | _ => none

/-- The parsed JSON request body of the chat endpoint: the `message` field
(`None` when missing) and the raw `session_id` field. -/
structure ChatPayload where
  message : Option String
  session_id : Option Json

/-- The observable outcome of `api_chat`: an HTTP 400 JSON error, or the 200
event-stream response with its frames. -/
inductive ChatResponse where
  | badRequest (error : String)
  | eventStream (frames : List Frame)

/-- `api_chat` (src/app.py lines 528-638) on an already-parsed JSON body:
strip the message, reject if empty, resolve/upsert the session, read the
history window, persist the user message, then stream `generate`. -/
def api_chat (db : DB) (payload : ChatPayload) (hasClient : Bool)
    (run : ProviderRun) : ChatResponse × DB :=
  let message := strip (payload.message.getD "")
  if message = "" then (ChatResponse.badRequest "message is required", db)
  else
    let p := ensure_chat_session db (requestedSessionStr payload.session_id)
    let session_id := p.1
    let db := p.2
    let _history := fetch_chat_history db session_id 12
    let db := save_chat_message db session_id "user" message
    let q := generate db session_id message hasClient run
    (ChatResponse.eventStream q.1, q.2)

/-! ### State-threading helper lemmas -/

theorem ensure_chat_session_messages (db : DB) (o : Option String) :
    (ensure_chat_session db o).2.messages = db.messages := by
  cases o with
  | none => rfl
  | some s => by_cases hs : s = "" <;> simp [ensure_chat_session, uuid4hex, utcnow, hs]

theorem ensure_chat_session_clock (db : DB) (o : Option String) :
    (ensure_chat_session db o).2.clock = db.clock + 1 := by
  cases o with
  | none => rfl
  | some s => by_cases hs : s = "" <;> simp [ensure_chat_session, uuid4hex, utcnow, hs]

theorem save_chat_message_messages (db : DB) (sid role content : String) :
    (save_chat_message db sid role content).messages =
      db.messages ++ [⟨sid, role, content, db.clock⟩] := rfl

theorem save_chat_message_clock (db : DB) (sid role content : String) :
    (save_chat_message db sid role content).clock = db.clock + 2 := rfl

/-- Unfolding `api_chat` on an accepted (non-empty trimmed) message. -/
theorem api_chat_accepted (db : DB) (p : ChatPayload) (hc : Bool) (run : ProviderRun)
    (h : ¬ strip (p.message.getD "") = "") :
    api_chat db p hc run =
      (ChatResponse.eventStream
          (generate
            (save_chat_message (ensure_chat_session db (requestedSessionStr p.session_id)).2
              (ensure_chat_session db (requestedSessionStr p.session_id)).1 "user"
              (strip (p.message.getD "")))
            (ensure_chat_session db (requestedSessionStr p.session_id)).1
            (strip (p.message.getD "")) hc run).1,
        (generate
            (save_chat_message (ensure_chat_session db (requestedSessionStr p.session_id)).2
              (ensure_chat_session db (requestedSessionStr p.session_id)).1 "user"
              (strip (p.message.getD "")))
            (ensure_chat_session db (requestedSessionStr p.session_id)).1
            (strip (p.message.getD "")) hc run).2) := by
  simp [api_chat, h]

/-- `generate` without a configured client. -/
theorem generate_noclient (db : DB) (sid msg : String) (run : ProviderRun) :
    generate db sid msg false run =
      ([⟨"session", "", sid⟩, ⟨"text", no_client_text msg, sid⟩, ⟨"end", "", sid⟩],
        save_chat_message db sid "assistant" (no_client_text msg)) := rfl

/-- `generate` when the provider interaction fails. -/
theorem generate_failure (db : DB) (sid msg : String) (run : ProviderRun)
    (h : run.failsDuringStream = true) :
    generate db sid msg true run =
      (⟨"session", "", sid⟩ ::
          run.deltasForwarded.map (fun d => ⟨"text", d, sid⟩) ++
          [⟨"error", ERROR_TEXT, sid⟩],
        db) := by
  cases run with
  | exn events => rfl
  | ok events final =>
      simp only [ProviderRun.failsDuringStream] at h
      simp [generate, ProviderRun.deltasForwarded, h]

/-- `generate` when the provider interaction succeeds. -/
theorem generate_success (db : DB) (sid msg : String) (events : List StreamEvent)
    (final : FinalResponse) (h : (stream_loop events).2 = false) :
    generate db sid msg true (ProviderRun.ok events final) =
      (let deltas := (stream_loop events).1
       let full := strip (String.join deltas)
       let resolved := if full = "" then salvage_full_text final else full
       if resolved = "" then
         (⟨"session", "", sid⟩ :: deltas.map (fun d => ⟨"text", d, sid⟩) ++
             [⟨"text", FALLBACK_TEXT, sid⟩, ⟨"end", "", sid⟩],
           save_chat_message db sid "assistant" FALLBACK_TEXT)
       else
         (⟨"session", "", sid⟩ :: deltas.map (fun d => ⟨"text", d, sid⟩) ++
             [⟨"end", "", sid⟩],
           save_chat_message db sid "assistant" resolved)) := by
  simp [generate, h]

/-- Every frame list produced by `generate` starts with the session frame. -/
theorem generate_head (db : DB) (sid msg : String) (hc : Bool) (run : ProviderRun) :
    ∃ rest, (generate db sid msg hc run).1 = ⟨"session", "", sid⟩ :: rest := by
  cases hc with
  | false => exact ⟨_, rfl⟩
  | true =>
      cases run with
      | exn events => exact ⟨_, rfl⟩
      | ok events final =>
          dsimp only [generate]
          split_ifs <;> exact ⟨_, rfl⟩

/-! ### C3 -/

/-- C3: a request whose message is missing or trims to the empty string is
rejected with the HTTP 400 `message is required` error, and the database
state is returned untouched: no session created or updated, no message
persisted, no frames emitted. -/
theorem api_chat_empty_message_rejected (db : DB) (p : ChatPayload) (hc : Bool)
    (run : ProviderRun) (h : strip (p.message.getD "") = "") :
    api_chat db p hc run = (ChatResponse.badRequest "message is required", db) := by
  simp [api_chat, h]

theorem api_chat_empty_message_rejected_witness :
    (strip ((some "   " : Option String).getD "") = "") ∧
      api_chat ⟨[], [], 0, 0⟩ ⟨some "   ", none⟩ true (ProviderRun.exn []) =
        (ChatResponse.badRequest "message is required", ⟨[], [], 0, 0⟩) :=
  ⟨by decide, api_chat_empty_message_rejected _ _ _ _ (by decide)⟩

/-! ### C5 -/

/-- C5: with no provider credential configured the provider run is irrelevant
(it is never consulted), and an accepted turn emits exactly `session`, one
`text` frame with the deterministic diagnostic containing the user's message,
then `end`; the diagnostic is persisted as the assistant message right after
the user row. -/
theorem api_chat_no_credential (db : DB) (p : ChatPayload) (run : ProviderRun)
    (h : strip (p.message.getD "") ≠ "") :
    ∃ sid t_u t_a,
      (api_chat db p false run).1 = ChatResponse.eventStream
          [⟨"session", "", sid⟩,
           ⟨"text", no_client_text (strip (p.message.getD "")), sid⟩,
           ⟨"end", "", sid⟩] ∧
      (api_chat db p false run).2.messages = db.messages ++
          [⟨sid, "user", strip (p.message.getD ""), t_u⟩,
           ⟨sid, "assistant", no_client_text (strip (p.message.getD "")), t_a⟩] ∧
      t_u ≤ t_a ∧
      (∀ run2, api_chat db p false run2 = api_chat db p false run) ∧
      (∃ pre post, no_client_text (strip (p.message.getD "")) =
          pre ++ strip (p.message.getD "") ++ post) := by
  refine ⟨(ensure_chat_session db (requestedSessionStr p.session_id)).1,
    db.clock + 1, db.clock + 3, ?_, ?_, by omega, ?_, ?_⟩
  · rw [api_chat_accepted db p false run h, generate_noclient]
  · rw [api_chat_accepted db p false run h, generate_noclient]
    simp [save_chat_message_messages, save_chat_message_clock,
      ensure_chat_session_messages, ensure_chat_session_clock]
  · intro run2
    rw [api_chat_accepted db p false run2 h, api_chat_accepted db p false run h,
      generate_noclient, generate_noclient]
  · refine ⟨"Unable to reach the OpenAI service right now. Please check the server logs.\n\n" ++
        "Message waiting to send: ",
      "\n" ++ "Confirm that OPENAI_API_KEY is configured before retrying.", ?_⟩
    simp [no_client_text, String.append_assoc]

theorem api_chat_no_credential_witness :
    strip ((some "Hello" : Option String).getD "") ≠ "" ∧
      ∃ sid t_u t_a,
        (api_chat ⟨[], [], 0, 0⟩ ⟨some "Hello", none⟩ false (ProviderRun.exn [])).1 =
            ChatResponse.eventStream
              [⟨"session", "", sid⟩,
               ⟨"text", no_client_text (strip ((some "Hello" : Option String).getD "")), sid⟩,
               ⟨"end", "", sid⟩] ∧
          (api_chat ⟨[], [], 0, 0⟩ ⟨some "Hello", none⟩ false (ProviderRun.exn [])).2.messages =
            ([] : List MessageRow) ++
              [⟨sid, "user", strip ((some "Hello" : Option String).getD ""), t_u⟩,
               ⟨sid, "assistant", no_client_text (strip ((some "Hello" : Option String).getD "")),
                 t_a⟩] ∧
          t_u ≤ t_a ∧
          (∀ run2, api_chat ⟨[], [], 0, 0⟩ ⟨some "Hello", none⟩ false run2 =
            api_chat ⟨[], [], 0, 0⟩ ⟨some "Hello", none⟩ false (ProviderRun.exn [])) ∧
          (∃ pre post, no_client_text (strip ((some "Hello" : Option String).getD "")) =
            pre ++ strip ((some "Hello" : Option String).getD "") ++ post) :=
  ⟨by decide, api_chat_no_credential _ _ _ (by decide)⟩

/-! ### C8 -/

/-- C8: upserting a session identifier already present in the store is
idempotent: the returned identifier is the supplied one, the message log is
untouched, no duplicate session row is created (row count and the id list are
unchanged), every creation timestamp is unchanged, rows for other ids are
untouched, and the matching row's `updated_at` becomes the current time. -/
theorem ensure_chat_session_idempotent (db : DB) (s : String)
    (hs : s ≠ "") (hmem : db.sessions.any (fun r => r.id == s) = true) :
    (ensure_chat_session db (some s)).1 = s ∧
    (ensure_chat_session db (some s)).2.messages = db.messages ∧
    (ensure_chat_session db (some s)).2.sessions.length = db.sessions.length ∧
    (ensure_chat_session db (some s)).2.sessions.map (fun r => r.id) =
      db.sessions.map (fun r => r.id) ∧
    (ensure_chat_session db (some s)).2.sessions.map (fun r => r.created_at) =
      db.sessions.map (fun r => r.created_at) ∧
    (∀ r ∈ (ensure_chat_session db (some s)).2.sessions, r.id ≠ s → r ∈ db.sessions) ∧
    (∀ r ∈ (ensure_chat_session db (some s)).2.sessions, r.id = s →
      r.updated_at = db.clock) := by
  have hunfold : ensure_chat_session db (some s) =
      (s, { db with
        clock := db.clock + 1,
        sessions := db.sessions.map (fun r =>
          if r.id = s then { r with updated_at := db.clock } else r) }) := by
    simp [ensure_chat_session, uuid4hex, utcnow, hs, hmem]
  rw [hunfold]
  dsimp only
  refine ⟨rfl, rfl, by simp, ?_, ?_, ?_, ?_⟩
  · rw [List.map_map]
    exact List.map_congr_left (fun r _ => by by_cases hr : r.id = s <;> simp [hr])
  · rw [List.map_map]
    exact List.map_congr_left (fun r _ => by by_cases hr : r.id = s <;> simp [hr])
  · intro r hr hne
    obtain ⟨a, ha, hae⟩ := List.mem_map.1 hr
    by_cases h2 : a.id = s
    · exfalso; apply hne; rw [← hae]; simp [h2]
    · rw [← hae]; simpa [h2] using ha
  · intro r hr hid
    obtain ⟨a, ha, hae⟩ := List.mem_map.1 hr
    by_cases h2 : a.id = s
    · rw [← hae]; simp [h2]
    · exfalso
      rw [← hae] at hid
      simp [h2] at hid

theorem ensure_chat_session_idempotent_witness :
    ("sess" ≠ "") ∧
      ((⟨[⟨"sess", 1, 1⟩, ⟨"other", 2, 2⟩], [], 7, 0⟩ : DB).sessions.any
        (fun r => r.id == "sess") = true) ∧
      ((ensure_chat_session ⟨[⟨"sess", 1, 1⟩, ⟨"other", 2, 2⟩], [], 7, 0⟩ (some "sess")).1 =
          "sess" ∧
        (ensure_chat_session ⟨[⟨"sess", 1, 1⟩, ⟨"other", 2, 2⟩], [], 7, 0⟩
            (some "sess")).2.messages =
          (⟨[⟨"sess", 1, 1⟩, ⟨"other", 2, 2⟩], [], 7, 0⟩ : DB).messages ∧
        (ensure_chat_session ⟨[⟨"sess", 1, 1⟩, ⟨"other", 2, 2⟩], [], 7, 0⟩
            (some "sess")).2.sessions.length =
          (⟨[⟨"sess", 1, 1⟩, ⟨"other", 2, 2⟩], [], 7, 0⟩ : DB).sessions.length ∧
        (ensure_chat_session ⟨[⟨"sess", 1, 1⟩, ⟨"other", 2, 2⟩], [], 7, 0⟩
            (some "sess")).2.sessions.map (fun r => r.id) =
          (⟨[⟨"sess", 1, 1⟩, ⟨"other", 2, 2⟩], [], 7, 0⟩ : DB).sessions.map (fun r => r.id) ∧
        (ensure_chat_session ⟨[⟨"sess", 1, 1⟩, ⟨"other", 2, 2⟩], [], 7, 0⟩
            (some "sess")).2.sessions.map (fun r => r.created_at) =
          (⟨[⟨"sess", 1, 1⟩, ⟨"other", 2, 2⟩], [], 7, 0⟩ : DB).sessions.map
            (fun r => r.created_at) ∧
        (∀ r ∈ (ensure_chat_session ⟨[⟨"sess", 1, 1⟩, ⟨"other", 2, 2⟩], [], 7, 0⟩
            (some "sess")).2.sessions, r.id ≠ "sess" →
          r ∈ (⟨[⟨"sess", 1, 1⟩, ⟨"other", 2, 2⟩], [], 7, 0⟩ : DB).sessions) ∧
        (∀ r ∈ (ensure_chat_session ⟨[⟨"sess", 1, 1⟩, ⟨"other", 2, 2⟩], [], 7, 0⟩
            (some "sess")).2.sessions, r.id = "sess" →
          r.updated_at = (⟨[⟨"sess", 1, 1⟩, ⟨"other", 2, 2⟩], [], 7, 0⟩ : DB).clock)) :=
  ⟨by decide, by decide, ensure_chat_session_idempotent _ _ (by decide) (by decide)⟩

/-! ### C9 -/

/-- C9: a present but non-string `session_id` behaves exactly as if no
session identifier had been supplied; in particular on an accepted message
the `session` frame carries the freshly generated identifier, and the
supplied value is never used. -/
theorem api_chat_nonstring_session_id (db : DB) (p : ChatPayload) (hc : Bool)
    (run : ProviderRun) (j : Json) (hj : j.isStr = false) (hp : p.session_id = some j) :
    api_chat db p hc run = api_chat db ⟨p.message, none⟩ hc run ∧
      (strip (p.message.getD "") ≠ "" →
        ∃ rest, (api_chat db p hc run).1 =
          ChatResponse.eventStream (⟨"session", "", (uuid4hex db).1⟩ :: rest)) := by
  have hreq : requestedSessionStr p.session_id = none := by
    rw [hp]; cases j <;> simp [requestedSessionStr, Json.isStr] at hj ⊢
  constructor
  · show api_chat db p hc run = api_chat db ⟨p.message, none⟩ hc run
    unfold api_chat
    rw [hreq]
    rfl
  · intro h
    rw [api_chat_accepted db p hc run h]
    have hsid : (ensure_chat_session db (requestedSessionStr p.session_id)).1 =
        (uuid4hex db).1 := by
      rw [hreq]; rfl
    obtain ⟨rest, hrest⟩ := generate_head
      (save_chat_message (ensure_chat_session db (requestedSessionStr p.session_id)).2
        (ensure_chat_session db (requestedSessionStr p.session_id)).1 "user"
        (strip (p.message.getD "")))
      (ensure_chat_session db (requestedSessionStr p.session_id)).1
      (strip (p.message.getD "")) hc run
    exact ⟨rest, by rw [hrest, hsid]⟩

theorem api_chat_nonstring_session_id_witness :
    (Json.num 7).isStr = false ∧
      ((⟨some "Hi", some (Json.num 7)⟩ : ChatPayload).session_id = some (Json.num 7)) ∧
      (api_chat ⟨[], [], 0, 0⟩ ⟨some "Hi", some (Json.num 7)⟩ true (ProviderRun.exn []) =
          api_chat ⟨[], [], 0, 0⟩ ⟨some "Hi", none⟩ true (ProviderRun.exn []) ∧
        (strip ((⟨some "Hi", some (Json.num 7)⟩ : ChatPayload).message.getD "") ≠ "" →
          ∃ rest, (api_chat ⟨[], [], 0, 0⟩ ⟨some "Hi", some (Json.num 7)⟩ true
              (ProviderRun.exn [])).1 =
            ChatResponse.eventStream
              (⟨"session", "", (uuid4hex ⟨[], [], 0, 0⟩).1⟩ :: rest))) :=
  ⟨rfl, rfl, api_chat_nonstring_session_id _ _ _ _ (Json.num 7) rfl rfl⟩

/-! ### C1 -/

/-- C1: on any provider failure during streaming (transport exception or a
provider error event) the turn emits the session frame, the delta frames
already forwarded, then exactly one `error` frame with the generic user-safe
message and nothing after it (in particular no `end` frame); the message log
gains only the user row persisted before the provider call. -/
theorem api_chat_provider_failure (db : DB) (p : ChatPayload) (run : ProviderRun)
    (hmsg : strip (p.message.getD "") ≠ "")
    (hfail : run.failsDuringStream = true) :
    ∃ sid t,
      (api_chat db p true run).1 = ChatResponse.eventStream
          (⟨"session", "", sid⟩ ::
            run.deltasForwarded.map (fun d => ⟨"text", d, sid⟩) ++
            [⟨"error", ERROR_TEXT, sid⟩]) ∧
      (api_chat db p true run).2.messages =
        db.messages ++ [⟨sid, "user", strip (p.message.getD ""), t⟩] := by
  refine ⟨(ensure_chat_session db (requestedSessionStr p.session_id)).1,
    db.clock + 1, ?_, ?_⟩
  · rw [api_chat_accepted db p true run hmsg, generate_failure _ _ _ _ hfail]
  · rw [api_chat_accepted db p true run hmsg, generate_failure _ _ _ _ hfail]
    simp [save_chat_message_messages, ensure_chat_session_messages,
      ensure_chat_session_clock]

theorem api_chat_provider_failure_witness :
    strip ((some "Hi" : Option String).getD "") ≠ "" ∧
      (ProviderRun.exn [StreamEvent.output_text_delta "Hel",
        StreamEvent.output_text_delta "lo"]).failsDuringStream = true ∧
      ∃ sid t,
        (api_chat ⟨[], [], 0, 0⟩ ⟨some "Hi", none⟩ true
            (ProviderRun.exn [StreamEvent.output_text_delta "Hel",
              StreamEvent.output_text_delta "lo"])).1 = ChatResponse.eventStream
            (⟨"session", "", sid⟩ ::
              (ProviderRun.exn [StreamEvent.output_text_delta "Hel",
                StreamEvent.output_text_delta "lo"]).deltasForwarded.map
                (fun d => ⟨"text", d, sid⟩) ++
              [⟨"error", ERROR_TEXT, sid⟩]) ∧
          (api_chat ⟨[], [], 0, 0⟩ ⟨some "Hi", none⟩ true
              (ProviderRun.exn [StreamEvent.output_text_delta "Hel",
                StreamEvent.output_text_delta "lo"])).2.messages =
            ([] : List MessageRow) ++
              [⟨sid, "user", strip ((some "Hi" : Option String).getD ""), t⟩] :=
  ⟨by decide, rfl, api_chat_provider_failure _ _ _ (by decide) rfl⟩

/-! ### C4 -/

/-- C4: on a successful provider stream the turn appends exactly one
assistant row right after the user row (with a later timestamp), holding the
stripped concatenation of the deltas when non-empty, else the text salvaged
from the final structured response, else the fixed fallback text; the frame
sequence forwards every delta, adds one extra `text` frame with the fallback
exactly when both the concatenation and the salvage are empty, and ends with
the `end` frame. -/
theorem api_chat_success_persists_assistant (db : DB) (p : ChatPayload)
    (events : List StreamEvent) (final : FinalResponse)
    (hmsg : strip (p.message.getD "") ≠ "")
    (hok : (stream_loop events).2 = false) :
    ∃ sid t_u t_a,
      (api_chat db p true (ProviderRun.ok events final)).2.messages =
        db.messages ++
          [⟨sid, "user", strip (p.message.getD ""), t_u⟩,
           ⟨sid, "assistant",
             (if strip (String.join (stream_loop events).1) ≠ "" then
                strip (String.join (stream_loop events).1)
              else if salvage_full_text final ≠ "" then salvage_full_text final
              else FALLBACK_TEXT), t_a⟩] ∧
      t_u ≤ t_a ∧
      (api_chat db p true (ProviderRun.ok events final)).1 = ChatResponse.eventStream
          (⟨"session", "", sid⟩ ::
            (stream_loop events).1.map (fun d => ⟨"text", d, sid⟩) ++
            (if strip (String.join (stream_loop events).1) = "" ∧
                salvage_full_text final = ""
             then [⟨"text", FALLBACK_TEXT, sid⟩] else []) ++
            [⟨"end", "", sid⟩]) := by
  refine ⟨(ensure_chat_session db (requestedSessionStr p.session_id)).1,
    db.clock + 1, db.clock + 3, ?_, by omega, ?_⟩ <;>
    rw [api_chat_accepted db p true (ProviderRun.ok events final) hmsg,
      generate_success _ _ _ _ _ hok] <;>
    by_cases hfull : strip (String.join (stream_loop events).1) = "" <;>
    by_cases hsalv : salvage_full_text final = "" <;>
    simp [hfull, hsalv, save_chat_message_messages, save_chat_message_clock,
      ensure_chat_session_messages, ensure_chat_session_clock]

theorem api_chat_success_persists_assistant_witness :
    strip ((some "Hi" : Option String).getD "") ≠ "" ∧
      (stream_loop [StreamEvent.output_text_delta "Hel",
        StreamEvent.output_text_delta "lo"]).2 = false ∧
      ∃ sid t_u t_a,
        (api_chat ⟨[], [], 0, 0⟩ ⟨some "Hi", none⟩ true
            (ProviderRun.ok [StreamEvent.output_text_delta "Hel",
              StreamEvent.output_text_delta "lo"] ⟨[]⟩)).2.messages =
          ([] : List MessageRow) ++
            [⟨sid, "user", strip ((some "Hi" : Option String).getD ""), t_u⟩,
             ⟨sid, "assistant",
               (if strip (String.join (stream_loop [StreamEvent.output_text_delta "Hel",
                    StreamEvent.output_text_delta "lo"]).1) ≠ "" then
                  strip (String.join (stream_loop [StreamEvent.output_text_delta "Hel",
                    StreamEvent.output_text_delta "lo"]).1)
                else if salvage_full_text ⟨[]⟩ ≠ "" then salvage_full_text ⟨[]⟩
                else FALLBACK_TEXT), t_a⟩] ∧
          t_u ≤ t_a ∧
          (api_chat ⟨[], [], 0, 0⟩ ⟨some "Hi", none⟩ true
              (ProviderRun.ok [StreamEvent.output_text_delta "Hel",
                StreamEvent.output_text_delta "lo"] ⟨[]⟩)).1 = ChatResponse.eventStream
            (⟨"session", "", sid⟩ ::
              (stream_loop [StreamEvent.output_text_delta "Hel",
                StreamEvent.output_text_delta "lo"]).1.map (fun d => ⟨"text", d, sid⟩) ++
              (if strip (String.join (stream_loop [StreamEvent.output_text_delta "Hel",
                    StreamEvent.output_text_delta "lo"]).1) = "" ∧
                  salvage_full_text ⟨[]⟩ = ""
               then [⟨"text", FALLBACK_TEXT, sid⟩] else []) ++
              [⟨"end", "", sid⟩]) :=
  ⟨by decide, rfl, api_chat_success_persists_assistant _ _ _ _ (by decide) rfl⟩

/-! ### C2 -/

/-- Ordering facts for a frame list of the shape
`session :: middle ++ [terminal]` where every middle frame is a `text` frame:
the session frame is first, the terminal frame is last, no `end`/`error`
frame occurs anywhere but last, and at most one `error` frame occurs. -/
theorem frame_list_props (sid : String) (mids : List Frame) (term : Frame)
    (hmids : ∀ f ∈ mids, f.type = "text")
    (hterm : term.type = "end" ∨ term.type = "error") :
    ((⟨"session", "", sid⟩ : Frame) :: mids ++ [term]).head? =
        some ⟨"session", "", sid⟩ ∧
      (∃ t, ((⟨"session", "", sid⟩ : Frame) :: mids ++ [term]).getLast? = some t ∧
        (t.type = "end" ∨ t.type = "error")) ∧
      (∀ f ∈ ((⟨"session", "", sid⟩ : Frame) :: mids ++ [term]).dropLast,
        f.type ≠ "end" ∧ f.type ≠ "error") ∧
      ((⟨"session", "", sid⟩ : Frame) :: mids ++ [term]).countP
          (fun f => f.type == "error") ≤ 1 := by
  refine ⟨rfl, ⟨term, ?_, hterm⟩, ?_, ?_⟩
  · rw [List.getLast?_concat]
  · rw [List.dropLast_concat]
    intro f hf
    rcases List.mem_cons.1 hf with h | h
    · subst h
      exact ⟨(by decide : ("session" : String) ≠ "end"),
        (by decide : ("session" : String) ≠ "error")⟩
    · rw [hmids f h]
      exact ⟨(by decide : ("text" : String) ≠ "end"),
        (by decide : ("text" : String) ≠ "error")⟩
  · rw [List.countP_append]
    have h1 : ((⟨"session", "", sid⟩ : Frame) :: mids).countP
        (fun f => f.type == "error") = 0 := by
      rw [List.countP_eq_zero]
      intro f hf
      rcases List.mem_cons.1 hf with h | h
      · subst h
        exact (by decide : ¬(("session" : String) == "error") = true)
      · simp [hmids f h]
    rw [h1]
    simp only [List.countP_cons, List.countP_nil, Nat.zero_add]
    split <;> omega

/-- C2: every accepted turn emits the session frame first; the last frame is
a terminal (`end` or `error`) frame; no `end` or `error` frame occurs before
the last position (hence every `text` frame precedes any terminal frame, an
`end` frame is only ever last, and nothing — in particular no `end` — follows
an `error` frame); and at most one `error` frame is emitted. -/
theorem api_chat_frame_ordering (db : DB) (p : ChatPayload) (hc : Bool)
    (run : ProviderRun) (hmsg : strip (p.message.getD "") ≠ "") :
    ∃ sid frames,
      (api_chat db p hc run).1 = ChatResponse.eventStream frames ∧
      frames.head? = some ⟨"session", "", sid⟩ ∧
      (∃ t, frames.getLast? = some t ∧ (t.type = "end" ∨ t.type = "error")) ∧
      (∀ f ∈ frames.dropLast, f.type ≠ "end" ∧ f.type ≠ "error") ∧
      frames.countP (fun f => f.type == "error") ≤ 1 := by
  refine ⟨(ensure_chat_session db (requestedSessionStr p.session_id)).1, ?_⟩
  rw [api_chat_accepted db p hc run hmsg]
  set sid := (ensure_chat_session db (requestedSessionStr p.session_id)).1
  set db2 := save_chat_message (ensure_chat_session db (requestedSessionStr p.session_id)).2
    sid "user" (strip (p.message.getD ""))
  cases hc with
  | false =>
      rw [generate_noclient]
      exact ⟨_, rfl,
        frame_list_props sid [⟨"text", no_client_text (strip (p.message.getD "")), sid⟩]
          ⟨"end", "", sid⟩ (by intro f hf; simp at hf; rw [hf]) (Or.inl rfl)⟩
  | true =>
      have hmapText : ∀ (ds : List String),
          ∀ f ∈ ds.map (fun d => (⟨"text", d, sid⟩ : Frame)), f.type = "text" := by
        intro ds f hf
        obtain ⟨d, _, hd⟩ := List.mem_map.1 hf
        rw [← hd]
      by_cases hfail : run.failsDuringStream = true
      · rw [generate_failure _ _ _ _ hfail]
        exact ⟨_, rfl,
          frame_list_props sid (run.deltasForwarded.map (fun d => ⟨"text", d, sid⟩))
            ⟨"error", ERROR_TEXT, sid⟩ (hmapText _) (Or.inr rfl)⟩
      · cases run with
        | exn events => exact absurd rfl hfail
        | ok events final =>
            have hok : (stream_loop events).2 = false := by
              simpa [ProviderRun.failsDuringStream] using hfail
            rw [generate_success _ _ _ _ _ hok]
            dsimp only
            by_cases hres : (if strip (String.join (stream_loop events).1) = "" then
                salvage_full_text final
              else strip (String.join (stream_loop events).1)) = ""
            · rw [if_pos hres]
              refine ⟨(⟨"session", "", sid⟩ : Frame) ::
                ((stream_loop events).1.map (fun d => ⟨"text", d, sid⟩) ++
                  [⟨"text", FALLBACK_TEXT, sid⟩]) ++ [⟨"end", "", sid⟩], ?_, ?_⟩
              · simp
              · refine frame_list_props sid _ _ ?_ (Or.inl rfl)
                intro f hf
                rcases List.mem_append.1 hf with h | h
                · exact hmapText _ f h
                · simp at h; rw [h]
            · rw [if_neg hres]
              exact ⟨_, rfl,
                frame_list_props sid ((stream_loop events).1.map (fun d => ⟨"text", d, sid⟩))
                  ⟨"end", "", sid⟩ (hmapText _) (Or.inl rfl)⟩

theorem api_chat_frame_ordering_witness :
    strip ((some "Hi" : Option String).getD "") ≠ "" ∧
      ∃ sid frames,
        (api_chat ⟨[], [], 0, 0⟩ ⟨some "Hi", none⟩ true
            (ProviderRun.ok [StreamEvent.output_text_delta "Hel",
              StreamEvent.response_error "boom"] ⟨[]⟩)).1 =
          ChatResponse.eventStream frames ∧
        frames.head? = some ⟨"session", "", sid⟩ ∧
        (∃ t, frames.getLast? = some t ∧ (t.type = "end" ∨ t.type = "error")) ∧
        (∀ f ∈ frames.dropLast, f.type ≠ "end" ∧ f.type ≠ "error") ∧
        frames.countP (fun f => f.type == "error") ≤ 1 :=
  ⟨by decide, api_chat_frame_ordering _ _ _ _ (by decide)⟩

/-! ### C6 -/

/-- Two permuted lists, both sorted by descending creation time, whose
creation times are pairwise distinct, coincide. -/
theorem sorted_perm_distinct_eq (l1 : List MessageRow) :
    ∀ l2 : List MessageRow, l1.Perm l2 → l1.Sorted byCreatedDesc →
      l2.Sorted byCreatedDesc →
      l1.Pairwise (fun a b => a.created_at ≠ b.created_at) → l1 = l2 := by
  induction l1 with
  | nil =>
      intro l2 hp _ _ _
      exact hp.nil_eq
  | cons a t1 ih =>
      intro l2 hp hs1 hs2 hd
      cases l2 with
      | nil => exact absurd hp.symm.nil_eq (by simp)
      | cons b t2 =>
          by_cases hab : a = b
          · subst hab
            rw [ih t2 hp.cons_inv hs1.of_cons hs2.of_cons (List.pairwise_cons.1 hd).2]
          · exfalso
            have hamem : a ∈ b :: t2 := hp.subset (List.mem_cons_self a t1)
            have hbmem : b ∈ a :: t1 := hp.symm.subset (List.mem_cons_self b t2)
            have ha2 : a ∈ t2 := by
              rcases List.mem_cons.1 hamem with h | h
              · exact absurd h hab
              · exact h
            have hb1 : b ∈ t1 := by
              rcases List.mem_cons.1 hbmem with h | h
              · exact absurd h.symm hab
              · exact h
            have h1 : byCreatedDesc a b := List.rel_of_sorted_cons hs1 b hb1
            have h2 : byCreatedDesc b a := List.rel_of_sorted_cons hs2 a ha2
            exact (List.pairwise_cons.1 hd).1 b hb1 (Nat.le_antisymm h2 h1)

/-- C6: the history window read returns at most `N` rows (the clamped limit)
for the session — exactly `min N count` of them; the rows are in
chronological order; they all belong to the session's stored messages; every
stored message left out is no newer than every returned row (the window keeps
the most recently created ones); a session holding at most `N` messages gets
all of them back; and (given pairwise-distinct creation times) the result
does not depend on storage insertion order.  `fetch_chat_history` itself is
the `(role, content)` projection of these rows. -/
theorem fetch_chat_history_window (db : DB) (session_id : String) (limit : Int)
    (hdist : (db.messages.filter (fun r => r.session_id == session_id)).Pairwise
      (fun a b => a.created_at ≠ b.created_at)) :
    fetch_chat_history db session_id limit =
      (fetch_chat_history_rows db session_id limit).map (fun r => (r.role, r.content)) ∧
    (fetch_chat_history_rows db session_id limit).length =
      min (if limit ≤ 0 then (1 : Int) else limit).toNat
        (db.messages.filter (fun r => r.session_id == session_id)).length ∧
    (fetch_chat_history_rows db session_id limit).Sorted
      (fun a b => a.created_at ≤ b.created_at) ∧
    (∀ r ∈ fetch_chat_history_rows db session_id limit,
      r ∈ db.messages.filter (fun r => r.session_id == session_id)) ∧
    (∀ a ∈ db.messages.filter (fun r => r.session_id == session_id),
      a ∉ fetch_chat_history_rows db session_id limit →
        ∀ b ∈ fetch_chat_history_rows db session_id limit,
          a.created_at ≤ b.created_at) ∧
    ((db.messages.filter (fun r => r.session_id == session_id)).length ≤
        (if limit ≤ 0 then (1 : Int) else limit).toNat →
      (fetch_chat_history_rows db session_id limit).Perm
        (db.messages.filter (fun r => r.session_id == session_id))) ∧
    (∀ db2 : DB,
      (db2.messages.filter (fun r => r.session_id == session_id)).Perm
        (db.messages.filter (fun r => r.session_id == session_id)) →
      fetch_chat_history_rows db2 session_id limit =
        fetch_chat_history_rows db session_id limit) := by
  set msgs := db.messages.filter (fun r => r.session_id == session_id) with hmsgs
  set N := (if limit ≤ 0 then (1 : Int) else limit).toNat with hN
  have hrows : fetch_chat_history_rows db session_id limit =
      ((msgs.insertionSort byCreatedDesc).take N).reverse := rfl
  have hsorted : (msgs.insertionSort byCreatedDesc).Sorted byCreatedDesc :=
    List.sorted_insertionSort byCreatedDesc msgs
  refine ⟨rfl, ?_, ?_, ?_, ?_, ?_, ?_⟩
  · rw [hrows]
    simp [List.length_take, List.length_insertionSort]
  · rw [hrows]
    exact List.pairwise_reverse.2
      (List.Pairwise.sublist (List.take_sublist N _) hsorted)
  · intro r hr
    rw [hrows, List.mem_reverse] at hr
    exact (List.mem_insertionSort byCreatedDesc).1 ((List.take_sublist N _).subset hr)
  · intro a ha hnotin b hb
    rw [hrows, List.mem_reverse] at hnotin hb
    have hsplit := List.take_append_drop N (msgs.insertionSort byCreatedDesc)
    have hain : a ∈ msgs.insertionSort byCreatedDesc :=
      (List.mem_insertionSort byCreatedDesc).2 ha
    rw [← hsplit, List.mem_append] at hain
    rcases hain with h | h
    · exact absurd h hnotin
    · have hpair : ((msgs.insertionSort byCreatedDesc).take N ++
          (msgs.insertionSort byCreatedDesc).drop N).Pairwise byCreatedDesc := by
        rw [hsplit]; exact hsorted
      exact (List.pairwise_append.1 hpair).2.2 b hb a h
  · intro hlen
    rw [hrows]
    have htake : (msgs.insertionSort byCreatedDesc).take N =
        msgs.insertionSort byCreatedDesc :=
      List.take_of_length_le (by rw [List.length_insertionSort]; exact hlen)
    rw [htake]
    exact (List.reverse_perm _).trans (List.perm_insertionSort _ _)
  · intro db2 hperm
    have hsorted2 : ((db2.messages.filter
        (fun r => r.session_id == session_id)).insertionSort byCreatedDesc).Sorted
          byCreatedDesc :=
      List.sorted_insertionSort _ _
    have hpermsort : ((db2.messages.filter
        (fun r => r.session_id == session_id)).insertionSort byCreatedDesc).Perm
          (msgs.insertionSort byCreatedDesc) :=
      ((List.perm_insertionSort _ _).trans hperm).trans
        (List.perm_insertionSort byCreatedDesc msgs).symm
    have hdsort : (msgs.insertionSort byCreatedDesc).Pairwise
        (fun a b => a.created_at ≠ b.created_at) :=
      ((List.perm_insertionSort byCreatedDesc msgs).pairwise_iff
        (fun h => h.symm)).2 hdist
    have heq : (db2.messages.filter
          (fun r => r.session_id == session_id)).insertionSort byCreatedDesc =
        msgs.insertionSort byCreatedDesc :=
      sorted_perm_distinct_eq _ _ hpermsort hsorted2 hsorted
        ((hpermsort.pairwise_iff (fun h => h.symm)).2 hdsort)
    show (((db2.messages.filter
        (fun r => r.session_id == session_id)).insertionSort byCreatedDesc).take
          N).reverse = _
    rw [heq, hrows]

theorem fetch_chat_history_window_witness :
    (((⟨[], [⟨"s", "user", "a", 5⟩, ⟨"s", "user", "b", 3⟩, ⟨"s", "assistant", "c", 4⟩,
          ⟨"t", "user", "z", 1⟩], 10, 0⟩ : DB).messages.filter
        (fun r => r.session_id == "s")).Pairwise
      (fun a b => a.created_at ≠ b.created_at)) ∧
      (fetch_chat_history ⟨[], [⟨"s", "user", "a", 5⟩, ⟨"s", "user", "b", 3⟩,
          ⟨"s", "assistant", "c", 4⟩, ⟨"t", "user", "z", 1⟩], 10, 0⟩ "s" 12 =
        (fetch_chat_history_rows ⟨[], [⟨"s", "user", "a", 5⟩, ⟨"s", "user", "b", 3⟩,
            ⟨"s", "assistant", "c", 4⟩, ⟨"t", "user", "z", 1⟩], 10, 0⟩ "s" 12).map
          (fun r => (r.role, r.content))) ∧
      (fetch_chat_history_rows ⟨[], [⟨"s", "user", "a", 5⟩, ⟨"s", "user", "b", 3⟩,
          ⟨"s", "assistant", "c", 4⟩, ⟨"t", "user", "z", 1⟩], 10, 0⟩ "s" 12).length =
        min (if (12 : Int) ≤ 0 then (1 : Int) else 12).toNat
          ((⟨[], [⟨"s", "user", "a", 5⟩, ⟨"s", "user", "b", 3⟩, ⟨"s", "assistant", "c", 4⟩,
            ⟨"t", "user", "z", 1⟩], 10, 0⟩ : DB).messages.filter
              (fun r => r.session_id == "s")).length ∧
      (fetch_chat_history_rows ⟨[], [⟨"s", "user", "a", 5⟩, ⟨"s", "user", "b", 3⟩,
          ⟨"s", "assistant", "c", 4⟩, ⟨"t", "user", "z", 1⟩], 10, 0⟩ "s" 12).Sorted
        (fun a b => a.created_at ≤ b.created_at) :=
  ⟨by decide,
    (fetch_chat_history_window ⟨[], [⟨"s", "user", "a", 5⟩, ⟨"s", "user", "b", 3⟩,
      ⟨"s", "assistant", "c", 4⟩, ⟨"t", "user", "z", 1⟩], 10, 0⟩ "s" 12 (by decide)).1,
    (fetch_chat_history_window ⟨[], [⟨"s", "user", "a", 5⟩, ⟨"s", "user", "b", 3⟩,
      ⟨"s", "assistant", "c", 4⟩, ⟨"t", "user", "z", 1⟩], 10, 0⟩ "s" 12 (by decide)).2.1,
    (fetch_chat_history_window ⟨[], [⟨"s", "user", "a", 5⟩, ⟨"s", "user", "b", 3⟩,
      ⟨"s", "assistant", "c", 4⟩, ⟨"t", "user", "z", 1⟩], 10, 0⟩ "s" 12 (by decide)).2.2.1⟩

/-! ### C7 -/

/-- The history loop of `build_assistant_messages` appends exactly the
filtered-and-stripped history entries, in order, after any accumulator. -/
theorem build_history_foldl (history : List (String × String)) (acc : List Msg) :
    history.foldl
        (fun acc item =>
          if (item.1 = "user" ∨ item.1 = "assistant") ∧ strip item.2 ≠ "" then
            acc ++ [⟨item.1, strip item.2⟩]
          else acc)
        acc =
      acc ++ (history.filter (fun it =>
          decide ((it.1 = "user" ∨ it.1 = "assistant") ∧ strip it.2 ≠ ""))).map
        (fun it => (⟨it.1, strip it.2⟩ : Msg)) := by
  induction history generalizing acc with
  | nil => simp
  | cons x xs ih =>
      by_cases hx : (x.1 = "user" ∨ x.1 = "assistant") ∧ strip x.2 ≠ "" <;>
        simp [hx, ih, List.filter_cons]

/-- The loop of `to_responses_input` is the 1:1 tagging map. -/
theorem to_responses_input_foldl (messages : List Msg) (acc : List WireMsg) :
    messages.foldl
        (fun structured message =>
          structured ++ [⟨message.role,
            [⟨if message.role = "assistant" then "output_text" else "input_text",
              message.content⟩]⟩])
        acc =
      acc ++ messages.map (fun m =>
        (⟨m.role, [⟨if m.role = "assistant" then "output_text" else "input_text",
          m.content⟩]⟩ : WireMsg)) := by
  induction messages generalizing acc with
  | nil => simp
  | cons x xs ih => simp [ih]

/-- C7: the assembled provider payload is the fixed context blocks (system
instruction then reference document, each present iff non-empty), followed by
exactly the history entries whose role is `user` or `assistant` and whose
stripped text is non-empty (in original order), followed by one trailing
`user` entry with the new message; and `to_responses_input` maps this 1:1 to
the wire shape, tagging `assistant` entries `output_text` and all others
`input_text`. -/
theorem build_assistant_messages_spec (system_prompt user_prompt : String)
    (history : List (String × String)) (user_content : String) :
    build_assistant_messages system_prompt user_prompt history user_content =
      (if system_prompt ≠ "" then [⟨"system", system_prompt⟩] else []) ++
        (if user_prompt ≠ "" then [⟨"user", user_prompt⟩] else []) ++
        (history.filter (fun it =>
            decide ((it.1 = "user" ∨ it.1 = "assistant") ∧ strip it.2 ≠ ""))).map
          (fun it => (⟨it.1, strip it.2⟩ : Msg)) ++
        [⟨"user", user_content⟩] ∧
    to_responses_input (build_assistant_messages system_prompt user_prompt history
        user_content) =
      (build_assistant_messages system_prompt user_prompt history user_content).map
        (fun m => (⟨m.role,
          [⟨if m.role = "assistant" then "output_text" else "input_text",
            m.content⟩]⟩ : WireMsg)) := by
  constructor
  · by_cases h1 : system_prompt = "" <;> by_cases h2 : user_prompt = "" <;>
      simp [build_assistant_messages, h1, h2, build_history_foldl]
  · rw [to_responses_input, to_responses_input_foldl]
    simp

/-! ### C10 -/

/-- C10 counterexample: a turn whose streamed deltas are all whitespace but
whose final structured response still carries salvageable text persists the
salvaged text, not the fixed fallback text, refuting the claim that the
fallback is what gets persisted in every whitespace-deltas turn. -/
theorem whitespace_deltas_salvage_counterexample :
    (∀ d ∈ (stream_loop [StreamEvent.output_text_delta "   "]).1, strip d = "") ∧
      String.join (stream_loop [StreamEvent.output_text_delta "   "]).1 ≠ "" ∧
      strip (String.join (stream_loop [StreamEvent.output_text_delta "   "]).1) = "" ∧
      ((api_chat ⟨[], [], 0, 0⟩ ⟨some "Hi", none⟩ true
          (ProviderRun.ok [StreamEvent.output_text_delta "   "]
            ⟨[⟨[⟨"output_text", "Salvaged reply"⟩]⟩]⟩)).2.messages.map
        (fun r => (r.role, r.content))) =
        [("user", "Hi"), ("assistant", "Salvaged reply")] ∧
      ("Salvaged reply" : String) ≠ FALLBACK_TEXT :=
  ⟨by decide, by decide, by decide, by decide, by decide⟩

/-- C10 (amended): when the stream succeeds, every delta is whitespace (the
concatenation is non-empty but strips to empty) and the final structured
response salvages no text either, the whitespace chunks are still forwarded
as `text` frames, yet the fixed fallback text is what gets persisted as the
assistant message and emitted as one additional `text` frame before `end` —
so the persisted assistant text differs from the concatenation of the
streamed delta frames. -/
theorem api_chat_whitespace_deltas_fallback (db : DB) (p : ChatPayload)
    (events : List StreamEvent) (final : FinalResponse)
    (hmsg : strip (p.message.getD "") ≠ "")
    (hok : (stream_loop events).2 = false)
    (hjoin : String.join (stream_loop events).1 ≠ "")
    (hws : strip (String.join (stream_loop events).1) = "")
    (hsalv : salvage_full_text final = "") :
    ∃ sid t_u t_a,
      (api_chat db p true (ProviderRun.ok events final)).1 = ChatResponse.eventStream
          (⟨"session", "", sid⟩ ::
            (stream_loop events).1.map (fun d => ⟨"text", d, sid⟩) ++
            [⟨"text", FALLBACK_TEXT, sid⟩, ⟨"end", "", sid⟩]) ∧
      (api_chat db p true (ProviderRun.ok events final)).2.messages =
        db.messages ++
          [⟨sid, "user", strip (p.message.getD ""), t_u⟩,
           ⟨sid, "assistant", FALLBACK_TEXT, t_a⟩] ∧
      FALLBACK_TEXT ≠ String.join (stream_loop events).1 := by
  refine ⟨(ensure_chat_session db (requestedSessionStr p.session_id)).1,
    db.clock + 1, db.clock + 3, ?_, ?_, ?_⟩
  · rw [api_chat_accepted db p true (ProviderRun.ok events final) hmsg,
      generate_success _ _ _ _ _ hok]
    simp [hws, hsalv]
  · rw [api_chat_accepted db p true (ProviderRun.ok events final) hmsg,
      generate_success _ _ _ _ _ hok]
    simp [hws, hsalv, save_chat_message_messages, save_chat_message_clock,
      ensure_chat_session_messages, ensure_chat_session_clock]
  · intro h
    have h2 := congrArg strip h
    rw [hws] at h2
    exact absurd h2 (by decide)

theorem api_chat_whitespace_deltas_fallback_witness :
    strip ((some "Hi" : Option String).getD "") ≠ "" ∧
      (stream_loop [StreamEvent.output_text_delta " "]).2 = false ∧
      String.join (stream_loop [StreamEvent.output_text_delta " "]).1 ≠ "" ∧
      strip (String.join (stream_loop [StreamEvent.output_text_delta " "]).1) = "" ∧
      salvage_full_text ⟨[]⟩ = "" ∧
      ∃ sid t_u t_a,
        (api_chat ⟨[], [], 0, 0⟩ ⟨some "Hi", none⟩ true
            (ProviderRun.ok [StreamEvent.output_text_delta " "] ⟨[]⟩)).1 =
          ChatResponse.eventStream
            (⟨"session", "", sid⟩ ::
              (stream_loop [StreamEvent.output_text_delta " "]).1.map
                (fun d => ⟨"text", d, sid⟩) ++
              [⟨"text", FALLBACK_TEXT, sid⟩, ⟨"end", "", sid⟩]) ∧
          (api_chat ⟨[], [], 0, 0⟩ ⟨some "Hi", none⟩ true
              (ProviderRun.ok [StreamEvent.output_text_delta " "] ⟨[]⟩)).2.messages =
            ([] : List MessageRow) ++
              [⟨sid, "user", strip ((some "Hi" : Option String).getD ""), t_u⟩,
               ⟨sid, "assistant", FALLBACK_TEXT, t_a⟩] ∧
          FALLBACK_TEXT ≠ String.join (stream_loop [StreamEvent.output_text_delta " "]).1 :=
  ⟨by decide, rfl, by decide, by decide, rfl,
    api_chat_whitespace_deltas_fallback _ _ _ _ (by decide) rfl (by decide) (by decide) rfl⟩

end Chatbot
